import Mathlib

/-!
Shallow embedding of the physics core of the gravity simulation
(source: src/gravity.py). Python floats are modelled as real numbers;
math.sqrt is Real.sqrt. Each physics function mutates planets in place
in the source; here it returns the updated planets.
-/

namespace Gravity

noncomputable section

/-- Arena width (source constant WIDTH = 1200). -/
def WIDTH : ℝ := 1200

/-- Arena height (source constant HEIGHT = 800). -/
def HEIGHT : ℝ := 800

/-- Gravitational constant (source constant G = 400). -/
def G : ℝ := 400

/-- Fixed time step (source constant DT = 1 / 60). -/
def DT : ℝ := 1 / 60

/-- Velocity cap (source constant MAX_VELOCITY = 25). -/
def MAX_VELOCITY : ℝ := 25

/-- A body of the simulation: the Planet class of the source, with
position, velocity, mass, radius and a cosmetic color. -/
structure Planet where
  x : ℝ
  y : ℝ
  vx : ℝ
  vy : ℝ
  mass : ℝ
  radius : ℝ
  color : ℕ × ℕ × ℕ

/-- Constructor of the Planet class: given position, mass, radius, color,
velocity starts at (0.0, 0.0). -/
def Planet.spawn (x y mass radius : ℝ) (color : ℕ × ℕ × ℕ) : Planet :=
  { x := x, y := y, vx := 0.0, vy := 0.0, mass := mass, radius := radius, color := color }

/-- Squared center distance dx*dx + dy*dy, as computed in apply_gravity
and handle_collision. -/
def distSq (p1 p2 : Planet) : ℝ :=
  (p2.x - p1.x) * (p2.x - p1.x) + (p2.y - p1.y) * (p2.y - p1.y)

/-- Center distance math.sqrt(dist_sq). -/
def dist (p1 p2 : Planet) : ℝ :=
  Real.sqrt (distSq p1 p2)

/-- Velocity magnitude math.sqrt(vx ** 2 + vy ** 2), as computed in
clamp_velocity. -/
def speed (p : Planet) : ℝ :=
  Real.sqrt (p.vx ^ 2 + p.vy ^ 2)

/-- The apply_gravity function of the source: pairwise gravitational
interaction, mutating both velocities. Returns the updated pair. -/
def apply_gravity (p1 p2 : Planet) : Planet × Planet :=
  let dx := p2.x - p1.x
  let dy := p2.y - p1.y
  let dist_sq := dx * dx + dy * dy
  if dist_sq = 0 then (p1, p2)
  else
    let d := Real.sqrt dist_sq
    if d > p1.radius + p2.radius + 5 then
      let force := G * p1.mass * p2.mass / dist_sq
      let fx := force * dx / d
      let fy := force * dy / d
      ({ p1 with vx := p1.vx + fx / p1.mass * DT, vy := p1.vy + fy / p1.mass * DT },
       { p2 with vx := p2.vx - fx / p2.mass * DT, vy := p2.vy - fy / p2.mass * DT })
    else (p1, p2)

/-- The clamp_velocity function of the source: rescale the velocity to
magnitude MAX_VELOCITY when it exceeds the cap. -/
def clamp_velocity (p : Planet) : Planet :=
  let v := Real.sqrt (p.vx ^ 2 + p.vy ^ 2)
  if v > MAX_VELOCITY then
    let scale := MAX_VELOCITY / v
    { p with vx := p.vx * scale, vy := p.vy * scale }
  else p

/-- The update_position function of the source: advance the position by
velocity * DT * 60, then bounce off the four borders in order
(left, right, top, bottom), each bounce clamping the position and
scaling the perpendicular velocity by -0.8. -/
def update_position (p : Planet) : Planet :=
  let a := { p with x := p.x + p.vx * DT * 60, y := p.y + p.vy * DT * 60 }
  let b := if a.x - a.radius < 0 then { a with x := a.radius, vx := a.vx * (-0.8) } else a
  let c := if b.x + b.radius > WIDTH then { b with x := WIDTH - b.radius, vx := b.vx * (-0.8) } else b
  let d := if c.y - c.radius < 0 then { c with y := c.radius, vy := c.vy * (-0.8) } else c
  if d.y + d.radius > HEIGHT then { d with y := HEIGHT - d.radius, vy := d.vy * (-0.8) } else d

/-- The handle_collision function of the source: positional overlap
resolution, pushing each body half the penetration depth along the
center line. Returns the updated pair. -/
def handle_collision (p1 p2 : Planet) : Planet × Planet :=
  let dx := p2.x - p1.x
  let dy := p2.y - p1.y
  let d := Real.sqrt (dx * dx + dy * dy)
  let min_dist := p1.radius + p2.radius
  if d < min_dist ∧ d > 0 then
    let overlap := 0.5 * (min_dist - d)
    let nx := dx / d
    let ny := dy / d
    ({ p1 with x := p1.x - nx * overlap, y := p1.y - ny * overlap },
     { p2 with x := p2.x + nx * overlap, y := p2.y + ny * overlap })
  else (p1, p2)

/-- One Motion Integrator pass on a single body: clamp_velocity followed
by update_position, as in the update pass of the main loop. -/
def motion_step (p : Planet) : Planet :=
  update_position (clamp_velocity p)

/-- Ascending index pairs (i, j) with i < j < n, in the order of the
nested loops for i in range(n-1), for j in range(i+1, n). -/
def index_pairs (n : ℕ) : List (ℕ × ℕ) :=
  ((List.range n).product (List.range n)).filter (fun ij => ij.1 < ij.2)

/-- Apply apply_gravity to the planets at indices ij.1 and ij.2 of the
collection, writing both results back. -/
def gravity_at (ps : List Planet) (ij : ℕ × ℕ) : List Planet :=
  match ps[ij.1]?, ps[ij.2]? with
  | some p1, some p2 =>
      let q := apply_gravity p1 p2
      (ps.set ij.1 q.1).set ij.2 q.2
  | _, _ => ps

/-- Apply handle_collision to the planets at indices ij.1 and ij.2 of the
collection, writing both results back. -/
def collide_at (ps : List Planet) (ij : ℕ × ℕ) : List Planet :=
  match ps[ij.1]?, ps[ij.2]? with
  | some p1, some p2 =>
      let q := handle_collision p1 p2
      (ps.set ij.1 q.1).set ij.2 q.2
  | _, _ => ps

/-- The gravity pass of the main loop: apply_gravity over all ascending
index pairs. -/
def gravity_pass (ps : List Planet) : List Planet :=
  (index_pairs ps.length).foldl gravity_at ps

/-- The update pass of the main loop: clamp_velocity then update_position
for each body. -/
def update_pass (ps : List Planet) : List Planet :=
  ps.map motion_step

/-- The collision pass of the main loop: handle_collision over all
ascending index pairs. -/
def collision_pass (ps : List Planet) : List Planet :=
  (index_pairs ps.length).foldl collide_at ps

/-- One Simulation Step: gravity pass, then update pass, then collision
pass, in the fixed order of the main loop. -/
def simulation_step (ps : List Planet) : List Planet :=
  collision_pass (update_pass (gravity_pass ps))

/-- k Simulation Steps from an initial collection. -/
def simulate : ℕ → List Planet → List Planet
  | 0, ps => ps
  | k + 1, ps => simulate k (simulation_step ps)

/-- Sample body at the origin, mass 2, radius 10. -/
def pO : Planet := { x := 0, y := 0, vx := 0, vy := 0, mass := 2, radius := 10, color := (0, 0, 0) }

/-- Sample body at x = 100, mass 3, radius 10: at distance 100 from pO,
outside contact range. -/
def pX100 : Planet := { x := 100, y := 0, vx := 0, vy := 0, mass := 3, radius := 10, color := (0, 0, 0) }

/-- Sample body at x = 10, mass 1, radius 10: overlapping pO. -/
def pX10 : Planet := { x := 10, y := 0, vx := 0, vy := 0, mass := 1, radius := 10, color := (0, 0, 0) }

/-- Sample body at x = 25, mass 1, radius 10: at distance exactly
radius + radius + 5 from pO. -/
def pX25 : Planet := { x := 25, y := 0, vx := 0, vy := 0, mass := 1, radius := 10, color := (0, 0, 0) }

/-- Sample body with its left edge past x = 0 and leftward speed 30,
above the velocity cap. -/
def pLeft : Planet := { x := 5, y := 400, vx := -30, vy := 0, mass := 1, radius := 10, color := (0, 0, 0) }

/-- The body pLeft after clamp_velocity: speed rescaled from 30 to 25. -/
def pLeftClamped : Planet := { x := 5, y := 400, vx := -25, vy := 0, mass := 1, radius := 10, color := (0, 0, 0) }

/-- The body pLeft after a full Motion Integrator pass: left-wall bounce
with restitution 0.8 applied to the clamped velocity. -/
def pLeftFinal : Planet := { x := 10, y := 400, vx := 20, vy := 0, mass := 1, radius := 10, color := (0, 0, 0) }

/-- Sample body with its left edge past x = 0 and leftward speed 10,
below the velocity cap. -/
def pSlow : Planet := { x := 5, y := 400, vx := -10, vy := 0, mass := 1, radius := 10, color := (0, 0, 0) }

/-- Sample body of radius 700: its diameter 1400 exceeds both arena
dimensions. -/
def pBig : Planet := { x := 600, y := 400, vx := 0, vy := 0, mass := 1, radius := 700, color := (0, 0, 0) }

/-- Square root of a number presented as a square of a nonnegative number. -/
lemma sqrt_eq_of_sq (a b : ℝ) (hb : 0 ≤ b) (h : b * b = a) : Real.sqrt a = b := by
  rw [← h, Real.sqrt_mul_self hb]

/-- The squared distance of a pair is nonnegative. -/
lemma distSq_nonneg (p1 p2 : Planet) : 0 ≤ distSq p1 p2 :=
  add_nonneg (mul_self_nonneg _) (mul_self_nonneg _)

/-- Square root of a scaled sum of squares, for a nonnegative scale. -/
lemma sqrt_scale (a b c : ℝ) (hc : 0 ≤ c) :
    Real.sqrt ((a * c) ^ 2 + (b * c) ^ 2) = Real.sqrt (a ^ 2 + b ^ 2) * c := by
  rw [show (a * c) ^ 2 + (b * c) ^ 2 = (a ^ 2 + b ^ 2) * c ^ 2 by ring,
    Real.sqrt_mul (by positivity), Real.sqrt_sq hc]

/-- A body at or below the velocity cap is unchanged by clamp_velocity. -/
lemma clamp_velocity_eq_self (p : Planet) (h : speed p ≤ MAX_VELOCITY) :
    clamp_velocity p = p := by
  unfold speed at h
  simp only [clamp_velocity]
  split_ifs with h1
  · exact absurd h1 (not_lt.mpr h)
  · rfl

/-- clamp_velocity leaves the radius unchanged. -/
lemma clamp_velocity_radius (p : Planet) : (clamp_velocity p).radius = p.radius := by
  simp only [clamp_velocity]
  split_ifs <;> rfl

/-- A body above the velocity cap is rescaled by clamp_velocity to speed
exactly MAX_VELOCITY. -/
lemma clamp_speed_eq (p : Planet) (h : speed p > MAX_VELOCITY) :
    speed (clamp_velocity p) = MAX_VELOCITY := by
  have hv : 0 < speed p := lt_trans (by norm_num [MAX_VELOCITY]) h
  unfold speed at hv h ⊢
  simp only [clamp_velocity]
  split_ifs
  dsimp only
  rw [sqrt_scale _ _ _ (le_of_lt (div_pos (by norm_num [MAX_VELOCITY]) hv))]
  field_simp

/-- clamp_velocity caps the speed at MAX_VELOCITY. -/
lemma clamp_speed_le (p : Planet) : speed (clamp_velocity p) ≤ MAX_VELOCITY := by
  by_cases h : speed p > MAX_VELOCITY
  · rw [clamp_speed_eq p h]
  · rw [clamp_velocity_eq_self p (not_lt.mp h)]
    exact not_lt.mp h

/-- Each bounce of update_position scales a velocity component by -0.8,
so squared components never grow. -/
lemma update_position_vsq (p : Planet) :
    ((update_position p).vx) ^ 2 ≤ p.vx ^ 2 ∧ ((update_position p).vy) ^ 2 ≤ p.vy ^ 2 := by
  simp only [update_position]
  split_ifs <;> dsimp only <;>
    exact ⟨by nlinarith [sq_nonneg p.vx], by nlinarith [sq_nonneg p.vy]⟩

/-- update_position never increases the speed. -/
lemma update_position_speed_le (p : Planet) : speed (update_position p) ≤ speed p := by
  unfold speed
  exact Real.sqrt_le_sqrt (add_le_add (update_position_vsq p).1 (update_position_vsq p).2)

/-- Containment of the circular extent after update_position, for a body
whose diameter fits the arena. -/
lemma update_position_contained (p : Planet)
    (hw : p.radius + p.radius ≤ WIDTH) (hh : p.radius + p.radius ≤ HEIGHT) :
    p.radius ≤ (update_position p).x ∧ (update_position p).x ≤ WIDTH - p.radius ∧
    p.radius ≤ (update_position p).y ∧ (update_position p).y ≤ HEIGHT - p.radius := by
  simp only [update_position]
  split_ifs <;> dsimp only at * <;>
    refine ⟨by linarith, by linarith, by linarith, by linarith⟩

/-- C1: for two bodies out of contact range, one apply_gravity call
changes the velocities by impulses satisfying
mass1 * dv1 = -(mass2 * dv2) on both axes. -/
theorem newton_third_law (p1 p2 : Planet) (hm1 : 0 < p1.mass) (hm2 : 0 < p2.mass)
    (h : dist p1 p2 > p1.radius + p2.radius + 5) :
    p1.mass * ((apply_gravity p1 p2).1.vx - p1.vx)
      = -(p2.mass * ((apply_gravity p1 p2).2.vx - p2.vx)) ∧
    p1.mass * ((apply_gravity p1 p2).1.vy - p1.vy)
      = -(p2.mass * ((apply_gravity p1 p2).2.vy - p2.vy)) := by
  simp only [apply_gravity]
  split_ifs with h0 h1
  · constructor <;> ring
  · have hpos : 0 < (p2.x - p1.x) * (p2.x - p1.x) + (p2.y - p1.y) * (p2.y - p1.y) :=
      lt_of_le_of_ne (add_nonneg (mul_self_nonneg _) (mul_self_nonneg _)) (Ne.symm h0)
    have hd : 0 < Real.sqrt ((p2.x - p1.x) * (p2.x - p1.x) + (p2.y - p1.y) * (p2.y - p1.y)) :=
      Real.sqrt_pos.mpr hpos
    constructor <;> (field_simp; ring)
  · constructor <;> ring

/-- C5: at or inside contact range (and in particular at coincident
centers, where dist_sq = 0), apply_gravity returns both bodies
unchanged. -/
theorem no_force_in_contact (p1 p2 : Planet) :
    (dist p1 p2 ≤ p1.radius + p2.radius + 5 → apply_gravity p1 p2 = (p1, p2)) ∧
    (distSq p1 p2 = 0 → apply_gravity p1 p2 = (p1, p2)) := by
  constructor
  · intro h
    unfold dist distSq at h
    simp only [apply_gravity]
    split_ifs with h0 h1
    · rfl
    · exact absurd h1 (not_lt.mpr h)
    · rfl
  · intro h
    unfold distSq at h
    simp only [apply_gravity]
    split_ifs
    rfl

/-- C6: on every branch of the physics core where a division is executed,
the divisor is nonzero: dist_sq and dist on the gravity branch, the
masses, the speed v on the clamping branch, and dist on the collision
branch. -/
theorem no_division_by_zero (p1 p2 q : Planet) (hm1 : 0 < p1.mass) (hm2 : 0 < p2.mass) :
    (distSq p1 p2 ≠ 0 → dist p1 p2 > p1.radius + p2.radius + 5 →
      distSq p1 p2 ≠ 0 ∧ dist p1 p2 ≠ 0 ∧ p1.mass ≠ 0 ∧ p2.mass ≠ 0) ∧
    (speed q > MAX_VELOCITY → speed q ≠ 0) ∧
    (dist p1 p2 < p1.radius + p2.radius ∧ dist p1 p2 > 0 → dist p1 p2 ≠ 0) := by
  refine ⟨fun hds _ => ⟨hds, ?_, hm1.ne', hm2.ne'⟩, fun hq => ?_, fun h => ne_of_gt h.2⟩
  · have hpos : 0 < distSq p1 p2 := lt_of_le_of_ne (distSq_nonneg p1 p2) (Ne.symm hds)
    unfold dist
    exact ne_of_gt (Real.sqrt_pos.mpr hpos)
  · have : (0 : ℝ) < MAX_VELOCITY := by norm_num [MAX_VELOCITY]
    exact ne_of_gt (lt_trans this hq)

/-- C4: for overlapping bodies at positive center distance, one
handle_collision call makes the center distance exactly the sum of the
radii and leaves all four velocity components unchanged. -/
theorem overlap_resolution (p1 p2 : Planet)
    (h0 : 0 < dist p1 p2) (h1 : dist p1 p2 < p1.radius + p2.radius) :
    dist (handle_collision p1 p2).1 (handle_collision p1 p2).2 = p1.radius + p2.radius ∧
    (handle_collision p1 p2).1.vx = p1.vx ∧ (handle_collision p1 p2).1.vy = p1.vy ∧
    (handle_collision p1 p2).2.vx = p2.vx ∧ (handle_collision p1 p2).2.vy = p2.vy := by
  unfold dist distSq at h0 h1 ⊢
  simp only [handle_collision]
  split_ifs with hc
  swap
  · exact absurd ⟨h1, h0⟩ hc
  refine ⟨?_, rfl, rfl, rfl, rfl⟩
  set dx := p2.x - p1.x with hdx
  set dy := p2.y - p1.y with hdy
  set d := Real.sqrt (dx * dx + dy * dy) with hd
  set m := p1.radius + p2.radius with hm
  have hd2 : d * d = dx * dx + dy * dy :=
    Real.mul_self_sqrt (add_nonneg (mul_self_nonneg _) (mul_self_nonneg _))
  have hmpos : 0 < m := lt_trans h0 h1
  have harg : (p2.x + dx / d * (0.5 * (m - d)) - (p1.x - dx / d * (0.5 * (m - d)))) *
        (p2.x + dx / d * (0.5 * (m - d)) - (p1.x - dx / d * (0.5 * (m - d)))) +
      (p2.y + dy / d * (0.5 * (m - d)) - (p1.y - dy / d * (0.5 * (m - d)))) *
        (p2.y + dy / d * (0.5 * (m - d)) - (p1.y - dy / d * (0.5 * (m - d)))) = m * m := by
    have e1 : p2.x + dx / d * (0.5 * (m - d)) - (p1.x - dx / d * (0.5 * (m - d)))
        = dx * (m / d) := by
      field_simp
      ring
    have e2 : p2.y + dy / d * (0.5 * (m - d)) - (p1.y - dy / d * (0.5 * (m - d)))
        = dy * (m / d) := by
      field_simp
      ring
    rw [e1, e2]
    field_simp
    nlinarith [hd2]
  rw [harg]
  exact Real.sqrt_mul_self (le_of_lt hmpos)

/-- C7: the Simulation Step and its iteration are deterministic: two runs
from the same ordered collection for the same number of ticks produce the
same final state. -/
theorem simulate_deterministic (ps1 ps2 : List Planet) (k1 k2 : ℕ)
    (hps : ps1 = ps2) (hk : k1 = k2) :
    simulate k1 ps1 = simulate k2 ps2 := by
  rw [hps, hk]

/-- C2 (amended): after a Motion Integrator pass the speed is at most
MAX_VELOCITY, and when clamping occurs the clamping step preserves the
velocity direction v / norm v. -/
theorem velocity_cap (p : Planet) :
    speed (motion_step p) ≤ MAX_VELOCITY ∧
    (speed p > MAX_VELOCITY →
      (clamp_velocity p).vx / speed (clamp_velocity p) = p.vx / speed p ∧
      (clamp_velocity p).vy / speed (clamp_velocity p) = p.vy / speed p) := by
  constructor
  · exact le_trans (update_position_speed_le (clamp_velocity p)) (clamp_speed_le p)
  · intro h
    have hv : 0 < speed p := lt_trans (by norm_num [MAX_VELOCITY]) h
    have hM : (MAX_VELOCITY : ℝ) ≠ 0 := by norm_num [MAX_VELOCITY]
    have h25 : speed (clamp_velocity p) = MAX_VELOCITY := clamp_speed_eq p h
    have hvx : (clamp_velocity p).vx = p.vx * (MAX_VELOCITY / speed p) := by
      unfold speed at h ⊢
      simp only [clamp_velocity]
      split_ifs
      rfl
    have hvy : (clamp_velocity p).vy = p.vy * (MAX_VELOCITY / speed p) := by
      unfold speed at h ⊢
      simp only [clamp_velocity]
      split_ifs
      rfl
    rw [h25, hvx, hvy]
    constructor <;> (field_simp; ring)

/-- C3 (amended): after a Motion Integrator pass, a body whose diameter
fits the arena has its circular extent inside the arena rectangle. -/
theorem boundary_containment (p : Planet) (hm : 0 < p.mass) (hr : 0 < p.radius)
    (hw : p.radius + p.radius ≤ WIDTH) (hh : p.radius + p.radius ≤ HEIGHT) :
    p.radius ≤ (motion_step p).x ∧ (motion_step p).x ≤ WIDTH - p.radius ∧
    p.radius ≤ (motion_step p).y ∧ (motion_step p).y ≤ HEIGHT - p.radius := by
  unfold motion_step
  have hcr : (clamp_velocity p).radius = p.radius := clamp_velocity_radius p
  have h := update_position_contained (clamp_velocity p)
    (by rw [hcr]; exact hw) (by rw [hcr]; exact hh)
  rw [hcr] at h
  exact h

/-- C8 (amended): a body below the velocity cap, with diameter fitting
the arena, whose left edge is past x = 0 and whose vx is negative, ends
a Motion Integrator pass with its left edge exactly at the wall and vx
flipped and scaled by 0.8. -/
theorem left_wall_bounce (p : Planet) (hx : p.x - p.radius < 0) (hvx : p.vx < 0)
    (hs : speed p ≤ MAX_VELOCITY) (hw : p.radius + p.radius ≤ WIDTH) :
    (motion_step p).x = p.radius ∧ (motion_step p).vx = -0.8 * p.vx := by
  unfold motion_step
  rw [clamp_velocity_eq_self p hs]
  have hDT : p.vx * DT * 60 = p.vx := by
    unfold DT
    ring
  simp only [update_position]
  split_ifs <;> dsimp only at * <;> constructor <;> first | linarith | ring

/-- C9: every newly spawned body starts with velocity exactly (0, 0). -/
theorem spawn_velocity_zero (x y mass radius : ℝ) (color : ℕ × ℕ × ℕ) :
    (Planet.spawn x y mass radius color).vx = 0 ∧
    (Planet.spawn x y mass radius color).vy = 0 := by
  constructor <;> norm_num [Planet.spawn]

/-- Evaluation: the square root of 900. -/
lemma sqrt_900 : Real.sqrt (900 : ℝ) = 30 := sqrt_eq_of_sq 900 30 (by norm_num) (by norm_num)

/-- Evaluation: the square root of 400. -/
lemma sqrt_400 : Real.sqrt (400 : ℝ) = 20 := sqrt_eq_of_sq 400 20 (by norm_num) (by norm_num)

/-- Evaluation: the square root of 625. -/
lemma sqrt_625 : Real.sqrt (625 : ℝ) = 25 := sqrt_eq_of_sq 625 25 (by norm_num) (by norm_num)

/-- Evaluation: the square root of 100. -/
lemma sqrt_100 : Real.sqrt (100 : ℝ) = 10 := sqrt_eq_of_sq 100 10 (by norm_num) (by norm_num)

/-- Evaluation: the square root of 10000. -/
lemma sqrt_10000 : Real.sqrt (10000 : ℝ) = 100 := sqrt_eq_of_sq 10000 100 (by norm_num) (by norm_num)

/-- Evaluation: clamp_velocity rescales pLeft from speed 30 to speed 25. -/
lemma clamp_pLeft : clamp_velocity pLeft = pLeftClamped := by
  unfold clamp_velocity pLeft pLeftClamped MAX_VELOCITY
  norm_num [sqrt_900, Planet.mk.injEq]

/-- Evaluation: update_position bounces pLeftClamped off the left wall. -/
lemma update_pLeftClamped : update_position pLeftClamped = pLeftFinal := by
  unfold update_position pLeftClamped pLeftFinal DT WIDTH HEIGHT
  norm_num [Planet.mk.injEq]

/-- Evaluation: one full Motion Integrator pass on pLeft. -/
lemma motion_pLeft : motion_step pLeft = pLeftFinal := by
  unfold motion_step
  rw [clamp_pLeft, update_pLeftClamped]

/-- Evaluation: the speed of pLeft is 30. -/
lemma speed_pLeft : speed pLeft = 30 := by
  unfold speed pLeft
  norm_num [sqrt_900]

/-- Evaluation: the speed of pLeftFinal is 20. -/
lemma speed_pLeftFinal : speed pLeftFinal = 20 := by
  unfold speed pLeftFinal
  norm_num [sqrt_400]

/-- Evaluation: one full Motion Integrator pass on the large body pBig:
it ends against the right and bottom walls. -/
lemma motion_pBig : motion_step pBig =
    { x := 500, y := 100, vx := 0, vy := 0, mass := 1, radius := 700, color := (0, 0, 0) } := by
  unfold motion_step
  rw [clamp_velocity_eq_self pBig (by unfold speed pBig MAX_VELOCITY; norm_num [Real.sqrt_zero])]
  unfold update_position pBig DT WIDTH HEIGHT
  norm_num [Planet.mk.injEq]

/-- C10: for overlapping bodies at positive distance, one Overlap Resolver
pass preserves the sum of the two x positions and the sum of the two y
positions (the midpoint of the centers is unchanged). -/
theorem collision_preserves_midpoint (p1 p2 : Planet)
    (h0 : 0 < dist p1 p2) (h1 : dist p1 p2 < p1.radius + p2.radius) :
    (handle_collision p1 p2).1.x + (handle_collision p1 p2).2.x = p1.x + p2.x ∧
    (handle_collision p1 p2).1.y + (handle_collision p1 p2).2.y = p1.y + p2.y := by
  simp only [handle_collision]
  split_ifs <;> constructor <;> simp <;> ring

/-- C1 witness: two bodies 100 apart with masses 2 and 3 receive equal
and opposite impulses. -/
theorem newton_third_law_witness :
    0 < pO.mass ∧ 0 < pX100.mass ∧ dist pO pX100 > pO.radius + pX100.radius + 5 ∧
    (pO.mass * ((apply_gravity pO pX100).1.vx - pO.vx)
      = -(pX100.mass * ((apply_gravity pO pX100).2.vx - pX100.vx)) ∧
     pO.mass * ((apply_gravity pO pX100).1.vy - pO.vy)
      = -(pX100.mass * ((apply_gravity pO pX100).2.vy - pX100.vy))) := by
  have hm1 : 0 < pO.mass := by norm_num [pO]
  have hm2 : 0 < pX100.mass := by norm_num [pX100]
  have hd : dist pO pX100 > pO.radius + pX100.radius + 5 := by
    unfold dist distSq pO pX100
    norm_num [sqrt_10000]
  exact ⟨hm1, hm2, hd, newton_third_law pO pX100 hm1 hm2 hd⟩

/-- C2 counterexample: pLeft is clamped during its Motion Integrator pass,
yet its velocity direction after the pass differs from the one before
(the left-wall bounce flips it). -/
theorem velocity_cap_counterexample :
    speed pLeft > MAX_VELOCITY ∧
    (motion_step pLeft).vx / speed (motion_step pLeft) ≠ pLeft.vx / speed pLeft := by
  constructor
  · rw [speed_pLeft]
    norm_num [MAX_VELOCITY]
  · rw [motion_pLeft, speed_pLeftFinal, speed_pLeft]
    norm_num [pLeftFinal, pLeft]

/-- C2 witness: for pLeft, which is above the cap, the pass ends at or
below the cap and the clamping step preserves the direction. -/
theorem velocity_cap_witness :
    speed pLeft > MAX_VELOCITY ∧
    speed (motion_step pLeft) ≤ MAX_VELOCITY ∧
    ((clamp_velocity pLeft).vx / speed (clamp_velocity pLeft) = pLeft.vx / speed pLeft ∧
     (clamp_velocity pLeft).vy / speed (clamp_velocity pLeft) = pLeft.vy / speed pLeft) := by
  have h : speed pLeft > MAX_VELOCITY := by
    rw [speed_pLeft]
    norm_num [MAX_VELOCITY]
  exact ⟨h, (velocity_cap pLeft).1, (velocity_cap pLeft).2 h⟩

/-- C3 counterexample: the radius-700 body pBig ends its pass with its
center at x = 500, inside its own radius, so its extent leaves the
arena on the left. -/
theorem boundary_containment_counterexample :
    0 < pBig.mass ∧ 0 < pBig.radius ∧ ¬ (pBig.radius ≤ (motion_step pBig).x) := by
  refine ⟨by norm_num [pBig], by norm_num [pBig], ?_⟩
  rw [motion_pBig]
  norm_num [pBig]

/-- C3 witness: the radius-10 body pO stays contained. -/
theorem boundary_containment_witness :
    0 < pO.mass ∧ 0 < pO.radius ∧ pO.radius + pO.radius ≤ WIDTH ∧
    pO.radius + pO.radius ≤ HEIGHT ∧
    (pO.radius ≤ (motion_step pO).x ∧ (motion_step pO).x ≤ WIDTH - pO.radius ∧
     pO.radius ≤ (motion_step pO).y ∧ (motion_step pO).y ≤ HEIGHT - pO.radius) := by
  have h1 : 0 < pO.mass := by norm_num [pO]
  have h2 : 0 < pO.radius := by norm_num [pO]
  have h3 : pO.radius + pO.radius ≤ WIDTH := by norm_num [pO, WIDTH]
  have h4 : pO.radius + pO.radius ≤ HEIGHT := by norm_num [pO, HEIGHT]
  exact ⟨h1, h2, h3, h4, boundary_containment pO h1 h2 h3 h4⟩

/-- C4 witness: two radius-10 bodies 10 apart are separated to distance
exactly 20 with velocities untouched. -/
theorem overlap_resolution_witness :
    0 < dist pO pX10 ∧ dist pO pX10 < pO.radius + pX10.radius ∧
    (dist (handle_collision pO pX10).1 (handle_collision pO pX10).2
        = pO.radius + pX10.radius ∧
     (handle_collision pO pX10).1.vx = pO.vx ∧ (handle_collision pO pX10).1.vy = pO.vy ∧
     (handle_collision pO pX10).2.vx = pX10.vx ∧ (handle_collision pO pX10).2.vy = pX10.vy) := by
  have hd : dist pO pX10 = 10 := by
    unfold dist distSq pO pX10
    norm_num [sqrt_100]
  have h0 : 0 < dist pO pX10 := by
    rw [hd]
    norm_num
  have h1 : dist pO pX10 < pO.radius + pX10.radius := by
    rw [hd]
    norm_num [pO, pX10]
  exact ⟨h0, h1, overlap_resolution pO pX10 h0 h1⟩

/-- C5 witness: two radius-10 bodies at distance exactly 25 = 10 + 10 + 5
are left unchanged by apply_gravity. -/
theorem no_force_in_contact_witness :
    dist pO pX25 ≤ pO.radius + pX25.radius + 5 ∧ apply_gravity pO pX25 = (pO, pX25) := by
  have hd : dist pO pX25 ≤ pO.radius + pX25.radius + 5 := by
    unfold dist distSq pO pX25
    norm_num [sqrt_625]
  exact ⟨hd, (no_force_in_contact pO pX25).1 hd⟩

/-- C6 witness: for the concrete out-of-range pair pO, pX100 every divisor
of the gravity branch is nonzero. -/
theorem no_division_by_zero_witness :
    0 < pO.mass ∧ 0 < pX100.mass ∧ distSq pO pX100 ≠ 0 ∧
    dist pO pX100 > pO.radius + pX100.radius + 5 ∧
    (distSq pO pX100 ≠ 0 ∧ dist pO pX100 ≠ 0 ∧ pO.mass ≠ 0 ∧ pX100.mass ≠ 0) := by
  have hm1 : 0 < pO.mass := by norm_num [pO]
  have hm2 : 0 < pX100.mass := by norm_num [pX100]
  have hds : distSq pO pX100 ≠ 0 := by
    unfold distSq pO pX100
    norm_num
  have hd : dist pO pX100 > pO.radius + pX100.radius + 5 := by
    unfold dist distSq pO pX100
    norm_num [sqrt_10000]
  exact ⟨hm1, hm2, hds, hd, (no_division_by_zero pO pX100 pO hm1 hm2).1 hds hd⟩

/-- C7 witness: two runs of two Simulation Steps on the same two-body
collection agree. -/
theorem simulate_deterministic_witness :
    simulate 2 [pO, pX100] = simulate 2 [pO, pX100] :=
  simulate_deterministic [pO, pX100] [pO, pX100] 2 2 rfl rfl

/-- C8 counterexample: pLeft has its left edge past x = 0 and negative vx,
but its vx after the pass is 20, not -0.8 * (-30) = 24, because
clamp_velocity ran first. -/
theorem left_wall_bounce_counterexample :
    pLeft.x - pLeft.radius < 0 ∧ pLeft.vx < 0 ∧
    (motion_step pLeft).vx ≠ -0.8 * pLeft.vx := by
  refine ⟨by norm_num [pLeft], by norm_num [pLeft], ?_⟩
  rw [motion_pLeft]
  norm_num [pLeftFinal, pLeft]

/-- C8 witness: the slow body pSlow bounces off the left wall with its
edge exactly on the wall and vx scaled by -0.8. -/
theorem left_wall_bounce_witness :
    pSlow.x - pSlow.radius < 0 ∧ pSlow.vx < 0 ∧ speed pSlow ≤ MAX_VELOCITY ∧
    pSlow.radius + pSlow.radius ≤ WIDTH ∧
    ((motion_step pSlow).x = pSlow.radius ∧ (motion_step pSlow).vx = -0.8 * pSlow.vx) := by
  have h1 : pSlow.x - pSlow.radius < 0 := by norm_num [pSlow]
  have h2 : pSlow.vx < 0 := by norm_num [pSlow]
  have h3 : speed pSlow ≤ MAX_VELOCITY := by
    unfold speed pSlow MAX_VELOCITY
    norm_num [sqrt_100]
  have h4 : pSlow.radius + pSlow.radius ≤ WIDTH := by norm_num [pSlow, WIDTH]
  exact ⟨h1, h2, h3, h4, left_wall_bounce pSlow h1 h2 h3 h4⟩

/-- C10 witness: for the overlapping pair pO, pX10 the sums of the x and
y coordinates are preserved by handle_collision. -/
theorem collision_preserves_midpoint_witness :
    0 < dist pO pX10 ∧ dist pO pX10 < pO.radius + pX10.radius ∧
    ((handle_collision pO pX10).1.x + (handle_collision pO pX10).2.x = pO.x + pX10.x ∧
     (handle_collision pO pX10).1.y + (handle_collision pO pX10).2.y = pO.y + pX10.y) := by
  have hd : dist pO pX10 = 10 := by
    unfold dist distSq pO pX10
    norm_num [sqrt_100]
  have h0 : 0 < dist pO pX10 := by
    rw [hd]
    norm_num
  have h1 : dist pO pX10 < pO.radius + pX10.radius := by
    rw [hd]
    norm_num [pO, pX10]
  exact ⟨h0, h1, collision_preserves_midpoint pO pX10 h0 h1⟩

end

end Gravity
